import Mathlib

/-!
Shallow embedding of the two controller modules of the
express-locallibrary-tutorial repository:
`src/controllers/genreController.js` and the bookinstance controller
(`src/unnamed/part_000`).

The document store is a triple of lists (genres, books, book instances).
Each request handler becomes a pure function from the store and the
request fields to a pair: the list of response actions the handler emits
(renders, redirects, forwarded errors, runtime faults), in the order the
JavaScript emits them, and the store after the handler's writes.
Absent form fields are `Option.none`; express-validator coerces a missing
field to the empty string before validating, which `fieldValue` mirrors.
String operations are implemented over `List Char` so that every
definition reduces under `decide`.
-/

namespace LocalLibrary

/-- Whitespace trimming over a character list (both ends), modelling the
`trim()` sanitizer. -/
def trimL (l : List Char) : List Char :=
  ((l.dropWhile Char.isWhitespace).reverse.dropWhile Char.isWhitespace).reverse

/-- The `trim()` sanitizer on a string. -/
def trimS (s : String) : String :=
  ⟨trimL s.data⟩

/-- Lowercasing a string (for the case-insensitive collation model). -/
def lowerS (s : String) : String :=
  ⟨s.data.map Char.toLower⟩

/-- Case-insensitive string equality, modelling the MongoDB collation
`{ locale: "en", strength: 2 }` lookup. -/
def eqCI (a b : String) : Bool :=
  lowerS a = lowerS b

/-- Length of a string in characters. -/
def lenS (s : String) : Nat :=
  s.data.length

/-- The `escape()` sanitizer of express-validator (validator.js escape)
on one character: each HTML-significant character becomes its entity. -/
def escapeChar (c : Char) : List Char :=
  if c.toNat = 38 then "&amp;".data
  else if c.toNat = 34 then "&quot;".data
  else if c.toNat = 39 then "&#x27;".data
  else if c.toNat = 60 then "&lt;".data
  else if c.toNat = 62 then "&gt;".data
  else if c.toNat = 47 then "&#x2F;".data
  else if c.toNat = 92 then "&#x5C;".data
  else if c.toNat = 96 then "&#96;".data
  else [c]

/-- The `escape()` sanitizer on a whole string. -/
def escape (s : String) : String :=
  ⟨s.data.foldr (fun c acc => escapeChar c ++ acc) []⟩

/-- A decimal digit character. -/
def isDigitChar (c : Char) : Bool :=
  48 ≤ c.toNat && c.toNat ≤ 57

/-- Value of a list of decimal digit characters. -/
def natOfDigits (l : List Char) : Nat :=
  l.foldl (fun n c => 10 * n + (c.toNat - 48)) 0

/-- Split a character list on the dash character (code 45), keeping
empty segments, as validator.js does when parsing a date literal. -/
def splitDash (l : List Char) (acc : List Char) : List (List Char) :=
  match l with
  | [] => [acc.reverse]
  | c :: cs =>
      if c.toNat = 45 then acc.reverse :: splitDash cs []
      else splitDash cs (c :: acc)

/-- Modelled from the spec: the external validator collaborator's
`isISO8601` date check (validator.js is not repository code); per the
spec, `due_back` must be "parseable as an ISO-8601 date".  Modelled as a
calendar date `YYYY-MM-DD` with month-aware day ranges and leap years. -/
def isISO8601 (s : String) : Bool :=
  match splitDash s.data [] with
  | [y, m, d] =>
      y.length = 4 && m.length = 2 && d.length = 2 &&
      y.all isDigitChar && m.all isDigitChar && d.all isDigitChar &&
      (let yv := natOfDigits y
       let mv := natOfDigits m
       let dv := natOfDigits d
       let leap : Bool := (yv % 4 = 0 && ¬ yv % 100 = 0) || yv % 400 = 0
       let maxDay : Nat :=
         if mv = 2 then (if leap then 29 else 28)
         else if mv = 4 || mv = 6 || mv = 9 || mv = 11 then 30
         else 31
       1 ≤ mv && mv ≤ 12 && 1 ≤ dv && dv ≤ maxDay)
  | _ => false

/-- A Genre document: `{ _id, name }`. -/
structure Genre where
  id : Nat
  name : String
deriving Repr, DecidableEq

/-- A Book document, reduced to the fields the two controllers read:
its id, its title, and the list of genre ids its `genre` array holds. -/
structure Book where
  id : Nat
  title : String
  genres : List Nat
deriving Repr, DecidableEq

/-- A BookInstance document: `{ _id, book, imprint, status, due_back }`.
The `book` reference and the date are kept as the sanitized strings the
handlers store; `due_back` is `none` when the field was skipped. -/
structure BookInstance where
  id : Nat
  book : String
  imprint : String
  status : String
  due_back : Option String
deriving Repr, DecidableEq

/-- The document store the handlers read and write. -/
structure Store where
  genres : List Genre
  books : List Book
  instances : List BookInstance
deriving Repr, DecidableEq

/-- One observable response action of a handler, in program order:
a `res.render` call with its view and payload, a `res.redirect`, a
`next(err)` with the attached status, or a runtime fault (an uncaught
TypeError from dereferencing a null document). -/
inductive Action where
  | renderGenreDetail (genre : Genre) (books : List Book)
  | renderGenreForm (title : String) (name : String) (errors : List String)
  | renderGenreDelete (genre : Option Genre) (books : List Book)
  | renderBookinstanceDetail (inst : BookInstance)
  | renderBookinstanceForm (title : String) (bookList : List Book)
      (selectedBook : String) (errors : List String) (inst : BookInstance)
  | renderBookinstanceDelete (inst : BookInstance)
  | redirect (url : String)
  | nextError (status : Nat) (msg : String)
  | fault (msg : String)
deriving Repr, DecidableEq

/-- Modelled from the spec: the Genre model (its `url` virtual) is not
under `src/`; per the spec, a genre's detail URL is
`/catalog/genre/<id>`. -/
def genreUrl (id : Nat) : String :=
  "/catalog/genre/" ++ toString id

/-- Modelled from the spec: the BookInstance model (its `url` virtual) is
not under `src/`; the detail URL is `/catalog/bookinstance/<id>`, matching
the genre scheme and the list URL `/catalog/bookinstances` used in the
controller. -/
def bookinstanceUrl (id : Nat) : String :=
  "/catalog/bookinstance/" ++ toString id

/-- express-validator hands a missing field to the validators as the
empty string. -/
def fieldValue : Option String → String
  | none => ""
  | some s => s

/-- The error message of the genre name validation chain. -/
def genreNameMsg : String :=
  "Genre name must contain at least 3 characters"

/-- The genre validation chain
`body("name", ...).trim().isLength({ min: 3 }).escape()`:
an error is recorded exactly when the trimmed name has fewer than 3
characters. -/
def genreNameErrors (name : Option String) : List String :=
  if 3 ≤ lenS (trimS (fieldValue name)) then [] else [genreNameMsg]

/-- The value of `req.body.name` after the chain's sanitizers ran:
trimmed, then escaped. -/
def sanitizedName (name : Option String) : String :=
  escape (trimS (fieldValue name))

/-- The books whose `genre` array references the given genre id:
`Book.find({ genre: id })`. -/
def booksOf (s : Store) (id : Nat) : List Book :=
  s.books.filter (fun b => b.genres.contains id)

/-- Lexicographic comparison of character lists by code point (helper
for the `sort({ title: 1 })` query modifier). -/
def strLeL : List Char → List Char → Bool
  | [], _ => true
  | _ :: _, [] => false
  | a :: as, b :: bs =>
      if a.toNat < b.toNat then true
      else if b.toNat < a.toNat then false
      else strLeL as bs

/-- Insert a book into a list sorted by title. -/
def insertByTitle (b : Book) : List Book → List Book
  | [] => [b]
  | x :: xs =>
      if strLeL b.title.data x.title.data then b :: x :: xs
      else x :: insertByTitle b xs

/-- `Book.find({}, "title").sort({ title: 1 })`: all books sorted by
title ascending. -/
def sortBooksByTitle (l : List Book) : List Book :=
  l.foldr insertByTitle []

/-- `exports.genre_detail`: fetch the genre and the books referencing it;
if the genre is null, forward a 404 error; else render the detail view. -/
def genre_detail (s : Store) (id : Nat) : List Action × Store :=
  match s.genres.find? (fun g => g.id = id) with
  | none => ([Action.nextError 404 "Genre not found"], s)
  | some g => ([Action.renderGenreDetail g (booksOf s id)], s)

/-- `exports.genre_create_post`: validate and sanitize `name`; on errors
re-render the form with the sanitized value; else look the name up
case-insensitively and either redirect to the existing genre or save a
new one (with the fresh id `newId`) and redirect to it. -/
def genre_create_post (s : Store) (name : Option String) (newId : Nat) :
    List Action × Store :=
  let errors := genreNameErrors name
  let n := sanitizedName name
  if errors = [] then
    match s.genres.find? (fun g => eqCI g.name n) with
    | some g => ([Action.redirect (genreUrl g.id)], s)
    | none =>
        ([Action.redirect (genreUrl newId)],
         { s with genres := s.genres ++ [⟨newId, n⟩] })
  else
    ([Action.renderGenreForm "Create Genre" n errors], s)

/-- `exports.genre_delete_get`: fetch the genre and its dependent books;
if the genre is null the handler redirects to the list but, lacking a
return, still falls through to the render (both actions are emitted). -/
def genre_delete_get (s : Store) (id : Nat) : List Action × Store :=
  let genre := s.genres.find? (fun g => g.id = id)
  ((if genre.isNone then [Action.redirect "/catalog/genres"] else []) ++
    [Action.renderGenreDelete genre (booksOf s id)], s)

/-- `exports.genre_delete_post`: fetch the genre at `req.params.id` and
its dependent books; if any books exist, render the confirmation view
with them; else delete the record named by the form body field
`req.body.genreid` (not the URL parameter) and redirect to the list.
`findByIdAndDelete(undefined)` matches nothing. -/
def genre_delete_post (s : Store) (paramsId : Nat) (genreid : Option Nat) :
    List Action × Store :=
  let genre := s.genres.find? (fun g => g.id = paramsId)
  let booksWithGenre := booksOf s paramsId
  if 0 < booksWithGenre.length then
    ([Action.renderGenreDelete genre booksWithGenre], s)
  else
    ([Action.redirect "/catalog/genres"],
     { s with genres := s.genres.filter (fun g => ¬ some g.id = genreid) })

/-- `exports.genre_update_post`: same validation as create; on errors
re-render; else `findByIdAndUpdate(req.params.id, genre, {})` (no upsert:
when the id is absent it returns null and `updatedGenre.url` throws a
TypeError) and redirect to the genre's URL. -/
def genre_update_post (s : Store) (paramsId : Nat) (name : Option String) :
    List Action × Store :=
  let errors := genreNameErrors name
  let n := sanitizedName name
  if errors = [] then
    match s.genres.find? (fun g => g.id = paramsId) with
    | none =>
        ([Action.fault "TypeError: Cannot read properties of null (reading url)"], s)
    | some _ =>
        ([Action.redirect (genreUrl paramsId)],
         { s with genres :=
            s.genres.map (fun g => if g.id = paramsId then { g with name := n } else g) })
  else
    ([Action.renderGenreForm "Update Genre" n errors], s)

/-- `exports.bookinstance_detail`: fetch the instance (book populated);
if null, forward a 404 error; else render the detail view. -/
def bookinstance_detail (s : Store) (id : Nat) : List Action × Store :=
  match s.instances.find? (fun i => i.id = id) with
  | none => ([Action.nextError 404 "Book copy not found"], s)
  | some i => ([Action.renderBookinstanceDetail i], s)

/-- The submitted bookinstance form fields (`none` = field absent). -/
structure BIForm where
  book : Option String
  imprint : Option String
  status : Option String
  due_back : Option String
deriving Repr, DecidableEq

/-- The `optional({ values: "falsy" })` guard on `due_back`: the chain is
skipped when the field is absent or its value is falsy (for a form-encoded
body, the empty string). -/
def dueBackSkipped (d : Option String) : Bool :=
  match d with
  | none => true
  | some v => v = ""

/-- The bookinstance validation chains: `book` and `imprint` are trimmed
and must be nonempty; `status` is only escaped; `due_back` is optional on
falsy values and otherwise must pass `isISO8601`.  The list collects the
error messages in chain order. -/
def biErrors (f : BIForm) : List String :=
  (if 1 ≤ lenS (trimS (fieldValue f.book)) then [] else ["Book must be specified"]) ++
  (if 1 ≤ lenS (trimS (fieldValue f.imprint)) then [] else ["Imprint must be specified"]) ++
  (if dueBackSkipped f.due_back then []
   else if isISO8601 (fieldValue f.due_back) then [] else ["Invalid date"])

/-- The BookInstance object the handler builds from the sanitized body
(`new BookInstance({...})`), with the given id. -/
def biOf (f : BIForm) (id : Nat) : BookInstance :=
  { id := id
    book := escape (trimS (fieldValue f.book))
    imprint := escape (trimS (fieldValue f.imprint))
    status := escape (fieldValue f.status)
    due_back := if dueBackSkipped f.due_back then none else f.due_back }

/-- `exports.bookinstance_create_post`: on validation errors, refetch the
book list and re-render the form with the unsaved instance and the
errors; else save the instance (fresh id `newId`) and redirect to it. -/
def bookinstance_create_post (s : Store) (f : BIForm) (newId : Nat) :
    List Action × Store :=
  let errors := biErrors f
  let bi := biOf f newId
  if errors = [] then
    ([Action.redirect (bookinstanceUrl newId)],
     { s with instances := s.instances ++ [bi] })
  else
    ([Action.renderBookinstanceForm "Create BookInstance"
        (sortBooksByTitle s.books) bi.book errors bi], s)

/-- `exports.bookinstance_delete_get`: fetch the instance; if null,
`return next(err)` with status 404 (this handler does return, so the
render below it is not reached); else render the confirmation view. -/
def bookinstance_delete_get (s : Store) (id : Nat) : List Action × Store :=
  match s.instances.find? (fun i => i.id = id) with
  | none => ([Action.nextError 404 "Instance not found"], s)
  | some i => ([Action.renderBookinstanceDelete i], s)

/-- `exports.bookinstance_delete_post`: fetch the instance; if null, the
handler redirects to the list but, lacking a return, falls through; the
delete by `req.params.id` and a second redirect then run unconditionally. -/
def bookinstance_delete_post (s : Store) (id : Nat) : List Action × Store :=
  let inst := s.instances.find? (fun i => i.id = id)
  ((if inst.isNone then [Action.redirect "/catalog/bookinstances"] else []) ++
    [Action.redirect "/catalog/bookinstances"],
   { s with instances := s.instances.filter (fun i => ¬ i.id = id) })

/-- `exports.bookinstance_update_get`: fetch the instance and the book
list; if the instance is null, `next(err)` is called WITHOUT return, so
execution falls through to the render call, whose argument
`instance.book._id` dereferences null and throws. -/
def bookinstance_update_get (s : Store) (id : Nat) : List Action × Store :=
  let allBooks := sortBooksByTitle s.books
  match s.instances.find? (fun i => i.id = id) with
  | none =>
      ([Action.nextError 404 "Instance not found",
        Action.fault "TypeError: Cannot read properties of null (reading book)"], s)
  | some i =>
      ([Action.renderBookinstanceForm "Update book instance" allBooks i.book [] i], s)

/-- `exports.bookinstance_update_post`: same validation as create; on
errors re-render with the unsaved instance; else
`findByIdAndUpdate(req.params.id, bookInstance, {})` (null when the id is
absent, making `updatedInstance.url` throw) and redirect. -/
def bookinstance_update_post (s : Store) (paramsId : Nat) (f : BIForm) :
    List Action × Store :=
  let errors := biErrors f
  let bi := biOf f paramsId
  if errors = [] then
    match s.instances.find? (fun i => i.id = paramsId) with
    | none =>
        ([Action.fault "TypeError: Cannot read properties of null (reading url)"], s)
    | some _ =>
        ([Action.redirect (bookinstanceUrl paramsId)],
         { s with instances :=
            s.instances.map (fun i => if i.id = paramsId then bi else i) })
  else
    ([Action.renderBookinstanceForm "Update BookInstance"
        (sortBooksByTitle s.books) bi.book errors bi], s)

example : isISO8601 "2024-01-31" = true := by decide
example : isISO8601 "2023-02-29" = false := by decide
example : isISO8601 "2024-02-29" = true := by decide
example : isISO8601 "" = false := by decide
example : escape "A&B" = "A&amp;B" := by decide
example : sanitizedName (some "  Sci-Fi  ") = "Sci-Fi" := by decide
example : eqCI "Sci-Fi" "sci-fi" = true := by decide

/-- Helper: a nonempty string has length at least 1. -/
theorem lenS_pos_of_ne_empty (s : String) (h : s ≠ "") : 1 ≤ lenS s := by
  cases s with
  | mk data =>
    cases data with
    | nil => exact absurd rfl h
    | cons c cs => simp [lenS]

/-- Helper: if some list member satisfies the predicate, `find?` returns
some element. -/
theorem find?_of_mem_genre {l : List Genre} {n : String} (g : Genre)
    (hmem : g ∈ l) (hci : eqCI g.name n = true) :
    ∃ x, l.find? (fun x => eqCI x.name n) = some x := by
  have hs : (l.find? (fun x => eqCI x.name n)).isSome = true := by
    rw [List.find?_isSome]
    exact ⟨g, hmem, hci⟩
  exact Option.isSome_iff_exists.mp hs

/-- C1 (counterexample): the lookup compares the ESCAPED trimmed name, so
a submitted name that after mere trimming equals an existing genre's name
case-insensitively, but contains an HTML-escapable character, is escaped
into a different string: the handler saves a second record and redirects
to the new genre, not the existing one. -/
theorem genre_create_trim_only_cx :
    eqCI (trimS "A&amp;B") "A&amp;B" = true ∧
    (genre_create_post ⟨[⟨1, "A&amp;B"⟩], [], []⟩ (some "A&amp;B") 2).2.genres =
      [⟨1, "A&amp;B"⟩, ⟨2, "A&amp;amp;B"⟩] ∧
    (genre_create_post ⟨[⟨1, "A&amp;B"⟩], [], []⟩ (some "A&amp;B") 2).1 =
      [Action.redirect (genreUrl 2)] := by
  decide

/-- C1 (amended): for every genre create request whose submitted name,
after trimming AND HTML-escaping, case-insensitively equals the name of
an existing genre, the handler redirects to the existing genre's detail
URL and does not save a new genre record; a save occurs only when no such
genre exists. -/
theorem genre_create_dedup (s : Store) (name : Option String) (newId : Nat)
    (hvalid : 3 ≤ lenS (trimS (fieldValue name))) :
    (∀ g, s.genres.find? (fun x => eqCI x.name (sanitizedName name)) = some g →
        genre_create_post s name newId = ([Action.redirect (genreUrl g.id)], s)) ∧
    ((∃ g ∈ s.genres, eqCI g.name (sanitizedName name)) →
        (genre_create_post s name newId).2 = s) ∧
    (s.genres.find? (fun x => eqCI x.name (sanitizedName name)) = none →
        genre_create_post s name newId =
          ([Action.redirect (genreUrl newId)],
           { s with genres := s.genres ++ [⟨newId, sanitizedName name⟩] })) := by
  have herr : genreNameErrors name = [] := by
    simp [genreNameErrors, hvalid]
  refine ⟨?_, ?_, ?_⟩
  · intro g hg
    simp [genre_create_post, herr, hg]
  · rintro ⟨g, hmem, hci⟩
    obtain ⟨x, hx⟩ := find?_of_mem_genre g hmem hci
    simp [genre_create_post, herr, hx]
  · intro hnone
    simp [genre_create_post, herr, hnone]

/-- Witness for C1's amended theorem at a concrete store and request. -/
theorem genre_create_dedup_witness :
    genre_create_post ⟨[⟨1, "fantasy"⟩], [], []⟩ (some "Fantasy") 2 =
      ([Action.redirect (genreUrl 1)], ⟨[⟨1, "fantasy"⟩], [], []⟩) :=
  (genre_create_dedup ⟨[⟨1, "fantasy"⟩], [], []⟩ (some "Fantasy") 2 (by decide)).1
    ⟨1, "fantasy"⟩ (by decide)

/-- C2 (counterexample): the delete call uses the form-body id
`genreid`, not the URL parameter; with URL id 1 (zero dependent books)
and body id 2, genre 1 survives while genre 2 is removed, so the claim
"the genre record is removed" fails for the checked genre. -/
theorem genre_delete_post_checked_survives_cx :
    booksOf ⟨[⟨1, "Fantasy"⟩, ⟨2, "Horror"⟩], [], []⟩ 1 = [] ∧
    (genre_delete_post ⟨[⟨1, "Fantasy"⟩, ⟨2, "Horror"⟩], [], []⟩ 1 (some 2)).2.genres =
      [⟨1, "Fantasy"⟩] ∧
    (genre_delete_post ⟨[⟨1, "Fantasy"⟩, ⟨2, "Horror"⟩], [], []⟩ 1 (some 2)).1 =
      [Action.redirect "/catalog/genres"] := by
  decide

/-- C2 (amended): for every genre delete POST request whose form-body
`genreid` equals the URL id: with at least one dependent book the genre
is not deleted and the confirmation view lists exactly those books; with
zero dependent books the genre record is removed and the response is a
redirect to the genre list. -/
theorem genre_delete_post_guarded (s : Store) (pid : Nat) (gid : Option Nat)
    (hid : gid = some pid) :
    (booksOf s pid ≠ [] →
        genre_delete_post s pid gid =
          ([Action.renderGenreDelete (s.genres.find? (fun g => g.id = pid))
              (booksOf s pid)], s)) ∧
    (booksOf s pid = [] →
        genre_delete_post s pid gid =
          ([Action.redirect "/catalog/genres"],
           { s with genres := s.genres.filter (fun g => ¬ g.id = pid) })) := by
  subst hid
  constructor
  · intro h
    have hpos : 0 < (booksOf s pid).length := List.length_pos.mpr h
    simp [genre_delete_post, hpos]
  · intro h
    simp [genre_delete_post, h]

/-- Witness for C2's amended theorem: deleting an unreferenced genre
through a well-formed request removes it and redirects to the list. -/
theorem genre_delete_post_guarded_witness :
    genre_delete_post ⟨[⟨1, "Fantasy"⟩], [], []⟩ 1 (some 1) =
      ([Action.redirect "/catalog/genres"], ⟨[], [], []⟩) := by
  have h := (genre_delete_post_guarded ⟨[⟨1, "Fantasy"⟩], [], []⟩ 1 (some 1) rfl).2
    (by decide)
  rw [h]
  decide

/-- C3: for every genre create or update request whose trimmed name is
shorter than 3 characters, the handler re-renders the form with the
length error and leaves the store unchanged (no insert, no update). -/
theorem genre_short_name_rejected (s : Store) (name : Option String)
    (pid newId : Nat) (h : lenS (trimS (fieldValue name)) < 3) :
    genre_create_post s name newId =
      ([Action.renderGenreForm "Create Genre" (sanitizedName name) [genreNameMsg]], s) ∧
    genre_update_post s pid name =
      ([Action.renderGenreForm "Update Genre" (sanitizedName name) [genreNameMsg]], s) := by
  have herr : genreNameErrors name = [genreNameMsg] := by
    simp [genreNameErrors, Nat.not_le.mpr h]
  constructor
  · unfold genre_create_post
    rw [herr]
    simp
  · unfold genre_update_post
    rw [herr]
    simp

/-- Witness for C3 at the concrete two-character name "ab". -/
theorem genre_short_name_rejected_witness :
    genre_create_post ⟨[], [], []⟩ (some "ab") 1 =
      ([Action.renderGenreForm "Create Genre" "ab" [genreNameMsg]], ⟨[], [], []⟩) :=
  (genre_short_name_rejected ⟨[], [], []⟩ (some "ab") 0 1 (by decide)).1

/-- C4 (counterexample): a PRESENT but empty `due_back` (the field
submitted with the empty string, as an HTML form does for a blank date
input) is falsy, so the `optional({ values: "falsy" })` guard skips the
ISO-8601 check: no validation error is raised and the record is
persisted, although the empty string does not parse as an ISO-8601
date. -/
theorem bookinstance_empty_due_back_cx :
    (BIForm.mk (some "abc123") (some "Imprint") (some "Available") (some "")).due_back ≠
      none ∧
    isISO8601 "" = false ∧
    biErrors (BIForm.mk (some "abc123") (some "Imprint") (some "Available") (some "")) =
      [] ∧
    (bookinstance_create_post ⟨[], [], []⟩
        (BIForm.mk (some "abc123") (some "Imprint") (some "Available") (some "")) 1).2.instances.length = 1 := by
  decide

/-- C4 (amended): for every bookinstance create or update request, an
absent or whitespace-only `imprint` or `book` field produces a validation
error, and a present NONEMPTY (truthy) `due_back` produces one unless it
passes the ISO-8601 date check; in every such case the form is
re-rendered with the errors and nothing is persisted. -/
theorem bookinstance_validation_rejects (s : Store) (f : BIForm)
    (pid newId : Nat)
    (h : trimS (fieldValue f.book) = "" ∨ trimS (fieldValue f.imprint) = "" ∨
         (∃ d, f.due_back = some d ∧ d ≠ "" ∧ isISO8601 d = false)) :
    biErrors f ≠ [] ∧
    bookinstance_create_post s f newId =
      ([Action.renderBookinstanceForm "Create BookInstance" (sortBooksByTitle s.books)
          (biOf f newId).book (biErrors f) (biOf f newId)], s) ∧
    bookinstance_update_post s pid f =
      ([Action.renderBookinstanceForm "Update BookInstance" (sortBooksByTitle s.books)
          (biOf f pid).book (biErrors f) (biOf f pid)], s) := by
  have hne : biErrors f ≠ [] := by
    rcases h with hb | hi | ⟨d, hd, hdne, hiso⟩
    · have hb0 : lenS (trimS (fieldValue f.book)) = 0 := by rw [hb]; rfl
      simp [biErrors, hb0]
    · have hi0 : lenS (trimS (fieldValue f.imprint)) = 0 := by rw [hi]; rfl
      have hmem : "Imprint must be specified" ∈ biErrors f := by
        simp [biErrors, hi0]
      exact List.ne_nil_of_mem hmem
    · have hskip : dueBackSkipped f.due_back = false := by
        rw [hd]; simp [dueBackSkipped, hdne]
      have hval : fieldValue f.due_back = d := by rw [hd]; rfl
      have hmem : "Invalid date" ∈ biErrors f := by
        simp [biErrors, hskip, hval, hiso]
      exact List.ne_nil_of_mem hmem
  refine ⟨hne, ?_, ?_⟩
  · simp [bookinstance_create_post, hne]
  · simp [bookinstance_update_post, hne]

/-- Witness for C4's amended theorem at an absent `book` field. -/
theorem bookinstance_validation_rejects_witness :
    biErrors (BIForm.mk none (some "Imp") (some "Available") none) ≠ [] ∧
    bookinstance_create_post ⟨[], [], []⟩
        (BIForm.mk none (some "Imp") (some "Available") none) 1 =
      ([Action.renderBookinstanceForm "Create BookInstance"
          (sortBooksByTitle (Store.mk [] [] []).books)
          (biOf (BIForm.mk none (some "Imp") (some "Available") none) 1).book
          (biErrors (BIForm.mk none (some "Imp") (some "Available") none))
          (biOf (BIForm.mk none (some "Imp") (some "Available") none) 1)],
        ⟨[], [], []⟩) ∧
    bookinstance_update_post ⟨[], [], []⟩ 0
        (BIForm.mk none (some "Imp") (some "Available") none) =
      ([Action.renderBookinstanceForm "Update BookInstance"
          (sortBooksByTitle (Store.mk [] [] []).books)
          (biOf (BIForm.mk none (some "Imp") (some "Available") none) 0).book
          (biErrors (BIForm.mk none (some "Imp") (some "Available") none))
          (biOf (BIForm.mk none (some "Imp") (some "Available") none) 0)],
        ⟨[], [], []⟩) :=
  bookinstance_validation_rejects ⟨[], [], []⟩
    (BIForm.mk none (some "Imp") (some "Available") none) 0 1 (Or.inl (by decide))

/-- C5: for every bookinstance form in which `due_back` is absent or
empty (falsy), the date chain is skipped, no "Invalid date" error is
produced, and with valid `book` and `imprint` the request is not
rejected: the record is persisted. -/
theorem due_back_falsy_skipped (f : BIForm)
    (h : f.due_back = none ∨ f.due_back = some "") :
    dueBackSkipped f.due_back = true ∧
    "Invalid date" ∉ biErrors f ∧
    (∀ (s : Store) (newId : Nat),
      trimS (fieldValue f.book) ≠ "" → trimS (fieldValue f.imprint) ≠ "" →
      biErrors f = [] ∧
      (bookinstance_create_post s f newId).2.instances = s.instances ++ [biOf f newId]) := by
  have hskip : dueBackSkipped f.due_back = true := by
    rcases h with h | h <;> rw [h] <;> simp [dueBackSkipped]
  refine ⟨hskip, ?_, ?_⟩
  · unfold biErrors
    rw [hskip]
    simp only [if_true]
    split_ifs <;> decide
  · intro s newId hb hi
    have hb1 : 1 ≤ lenS (trimS (fieldValue f.book)) :=
      lenS_pos_of_ne_empty _ hb
    have hi1 : 1 ≤ lenS (trimS (fieldValue f.imprint)) :=
      lenS_pos_of_ne_empty _ hi
    have herr : biErrors f = [] := by
      unfold biErrors
      rw [hskip]
      simp [hb1, hi1]
    refine ⟨herr, ?_⟩
    simp [bookinstance_create_post, herr]

/-- Witness for C5 at a blank submitted date. -/
theorem due_back_falsy_skipped_witness :
    dueBackSkipped (BIForm.mk (some "abc123") (some "Imp") (some "Available") (some "")).due_back = true ∧
    "Invalid date" ∉ biErrors (BIForm.mk (some "abc123") (some "Imp") (some "Available") (some "")) ∧
    biErrors (BIForm.mk (some "abc123") (some "Imp") (some "Available") (some "")) = [] ∧
    (bookinstance_create_post ⟨[], [], []⟩
        (BIForm.mk (some "abc123") (some "Imp") (some "Available") (some "")) 1).2.instances =
      [] ++ [biOf (BIForm.mk (some "abc123") (some "Imp") (some "Available") (some "")) 1] := by
  have h := due_back_falsy_skipped
    (BIForm.mk (some "abc123") (some "Imp") (some "Available") (some "")) (Or.inr rfl)
  have h3 := h.2.2 ⟨[], [], []⟩ 1 (by decide) (by decide)
  exact ⟨h.1, h.2.1, h3.1, h3.2⟩

/-- C6: for every detail request (genre or bookinstance) whose id matches
no stored record, the handler forwards a 404-tagged error and emits no
render. -/
theorem detail_missing_404 (s : Store) (id : Nat)
    (hg : s.genres.find? (fun g => g.id = id) = none)
    (hi : s.instances.find? (fun i => i.id = id) = none) :
    genre_detail s id = ([Action.nextError 404 "Genre not found"], s) ∧
    bookinstance_detail s id = ([Action.nextError 404 "Book copy not found"], s) := by
  constructor
  · unfold genre_detail
    rw [hg]
  · unfold bookinstance_detail
    rw [hi]

/-- Witness for C6 on the empty store. -/
theorem detail_missing_404_witness :
    genre_detail ⟨[], [], []⟩ 1 = ([Action.nextError 404 "Genre not found"], ⟨[], [], []⟩) ∧
    bookinstance_detail ⟨[], [], []⟩ 1 =
      ([Action.nextError 404 "Book copy not found"], ⟨[], [], []⟩) :=
  detail_missing_404 ⟨[], [], []⟩ 1 (by decide) (by decide)

/-- C7 (code evaluated at the failing input): on a delete POST for an
absent bookinstance the handler emits the absent-branch redirect AND
still falls through to the unconditional delete and a second redirect —
the two outcomes are not mutually exclusive as the claim (and the spec's
else-wording) requires; on a present instance a single redirect is
emitted and the record is removed. -/
theorem bookinstance_delete_post_double_redirect :
    (bookinstance_delete_post ⟨[], [], []⟩ 5).1 =
      [Action.redirect "/catalog/bookinstances", Action.redirect "/catalog/bookinstances"] ∧
    (bookinstance_delete_post ⟨[], [], [⟨5, "b", "i", "Available", none⟩]⟩ 5).1 =
      [Action.redirect "/catalog/bookinstances"] ∧
    (bookinstance_delete_post ⟨[], [], [⟨5, "b", "i", "Available", none⟩]⟩ 5).2.instances =
      [] := by
  decide

/-- C8 (counterexample): the bookinstance delete-get handler DOES return
after forwarding the NotFound error, so there is no input on which it
emits both the 404 error and a render — refuting the claim's assertion
for this handler. -/
theorem bookinstance_delete_get_no_double_response :
    ¬ ∃ (s : Store) (id : Nat),
        Action.nextError 404 "Instance not found" ∈ (bookinstance_delete_get s id).1 ∧
        ∃ i, Action.renderBookinstanceDelete i ∈ (bookinstance_delete_get s id).1 := by
  rintro ⟨s, id, herr, i, hren⟩
  unfold bookinstance_delete_get at herr hren
  cases hfind : s.instances.find? (fun j => j.id = id) with
  | none =>
      rw [hfind] at hren
      simp at hren
  | some j =>
      rw [hfind] at herr
      simp at herr

/-- C8 (amended): on a missing record, the genre delete-get handler emits
the list redirect AND the render (a double response); the bookinstance
update-get handler emits the 404 error and then faults dereferencing the
null record before rendering; the bookinstance delete-get handler always
emits exactly one response — either the 404 error or the render, never
both. -/
theorem missing_record_response_traces (s : Store) (id : Nat)
    (hg : s.genres.find? (fun g => g.id = id) = none)
    (hi : s.instances.find? (fun i => i.id = id) = none) :
    (genre_delete_get s id).1 =
      [Action.redirect "/catalog/genres",
       Action.renderGenreDelete none (booksOf s id)] ∧
    (bookinstance_update_get s id).1 =
      [Action.nextError 404 "Instance not found",
       Action.fault "TypeError: Cannot read properties of null (reading book)"] ∧
    (∀ (s2 : Store) (i2 : Nat),
        (bookinstance_delete_get s2 i2).1 = [Action.nextError 404 "Instance not found"] ∨
        ∃ j, (bookinstance_delete_get s2 i2).1 = [Action.renderBookinstanceDelete j]) := by
  refine ⟨?_, ?_, ?_⟩
  · simp [genre_delete_get, hg]
  · simp [bookinstance_update_get, hi]
  · intro s2 i2
    unfold bookinstance_delete_get
    cases hfind : s2.instances.find? (fun j => j.id = i2) with
    | none => exact Or.inl rfl
    | some j => exact Or.inr ⟨j, rfl⟩

/-- Witness for C8's amended theorem on the empty store. -/
theorem missing_record_response_traces_witness :
    (genre_delete_get ⟨[], [], []⟩ 1).1 =
      [Action.redirect "/catalog/genres",
       Action.renderGenreDelete none (booksOf ⟨[], [], []⟩ 1)] ∧
    (bookinstance_update_get ⟨[], [], []⟩ 1).1 =
      [Action.nextError 404 "Instance not found",
       Action.fault "TypeError: Cannot read properties of null (reading book)"] ∧
    (∀ (s2 : Store) (i2 : Nat),
        (bookinstance_delete_get s2 i2).1 = [Action.nextError 404 "Instance not found"] ∨
        ∃ j, (bookinstance_delete_get s2 i2).1 = [Action.renderBookinstanceDelete j]) :=
  missing_record_response_traces ⟨[], [], []⟩ 1 (by decide) (by decide)

/-- C9: on a bookinstance update GET for an id with no stored instance,
the handler does not halt after forwarding the 404 error: the trace
continues with the fault from dereferencing the absent instance's `book`
field. -/
theorem bookinstance_update_get_no_halt (s : Store) (id : Nat)
    (h : s.instances.find? (fun i => i.id = id) = none) :
    (bookinstance_update_get s id).1 =
      [Action.nextError 404 "Instance not found",
       Action.fault "TypeError: Cannot read properties of null (reading book)"] := by
  simp [bookinstance_update_get, h]

/-- Witness for C9 on the empty store. -/
theorem bookinstance_update_get_no_halt_witness :
    (bookinstance_update_get ⟨[], [], []⟩ 3).1 =
      [Action.nextError 404 "Instance not found",
       Action.fault "TypeError: Cannot read properties of null (reading book)"] :=
  bookinstance_update_get_no_halt ⟨[], [], []⟩ 3 (by decide)

/-- C10: the genre delete POST handler deletes by the form-body field
`genreid`, not the URL parameter: when the two differ and the URL genre
has no dependent books, the store drops exactly the records named by the
body id, every genre with the URL id survives, and the response is the
list redirect. -/
theorem genre_delete_post_body_id (s : Store) (pid gid : Nat)
    (hne : gid ≠ pid) (hnb : booksOf s pid = []) :
    (genre_delete_post s pid (some gid)).2.genres =
      s.genres.filter (fun g => ¬ g.id = gid) ∧
    (∀ g ∈ s.genres, g.id = pid → g ∈ (genre_delete_post s pid (some gid)).2.genres) ∧
    (genre_delete_post s pid (some gid)).1 = [Action.redirect "/catalog/genres"] := by
  have hlen : ¬ 0 < (booksOf s pid).length := by rw [hnb]; simp
  refine ⟨?_, ?_, ?_⟩
  · simp [genre_delete_post, hlen]
  · intro g hg hgid
    simp only [genre_delete_post, if_neg hlen, List.mem_filter, decide_not]
    refine ⟨hg, ?_⟩
    simp only [hgid, Option.some.injEq, decide_eq_true_eq]
    simp [Ne.symm hne]
  · simp [genre_delete_post, hlen]

/-- Witness for C10: URL id 1, body id 2 — genre 2 is removed, genre 1
survives. -/
theorem genre_delete_post_body_id_witness :
    (genre_delete_post ⟨[⟨1, "Fantasy"⟩, ⟨2, "Horror"⟩], [], []⟩ 1 (some 2)).2.genres =
      [⟨1, "Fantasy"⟩, ⟨2, "Horror"⟩].filter (fun g => ¬ g.id = 2) ∧
    (∀ g ∈ [Genre.mk 1 "Fantasy", Genre.mk 2 "Horror"], g.id = 1 →
        g ∈ (genre_delete_post ⟨[⟨1, "Fantasy"⟩, ⟨2, "Horror"⟩], [], []⟩ 1 (some 2)).2.genres) ∧
    (genre_delete_post ⟨[⟨1, "Fantasy"⟩, ⟨2, "Horror"⟩], [], []⟩ 1 (some 2)).1 =
      [Action.redirect "/catalog/genres"] :=
  genre_delete_post_body_id ⟨[⟨1, "Fantasy"⟩, ⟨2, "Horror"⟩], [], []⟩ 1 2
    (by decide) (by decide)

end LocalLibrary
